import Mathlib

/-!
Shallow embedding of the grokomation gateway sources
(`database.py`, `opencode.py`, `processes.py`, `main.py`) and proofs of the
behavioural properties stated about them.

Modelling conventions:
* the sqlite `instances` table and the in-process spec-cache dict are both
  modelled as association lists with explicit lookup / replace / delete
  operations;
* network effects (spec fetches, health probes, backend calls) are passed in
  as explicit outcome values, so every function is a pure state transformer;
* Python exceptions become `Except` values; an uncaught exception is an
  `Except.error` escaping the function.
-/

set_option autoImplicit false

/-! ## Association-list primitives

Model of a keyed store: the sqlite table keyed by its primary key, and the
Python dict keyed by `(hostname, port)`.  `alistFind` returns the first
binding (sqlite `fetchone`), `alistErase` removes every binding for the key
(sqlite `DELETE`), `alistInsert` models `INSERT OR REPLACE` / dict
assignment. -/

def alistErase {α β : Type} [DecidableEq α] (l : List (α × β)) (k : α) : List (α × β) :=
  l.filter (fun e => !decide (e.1 = k))

def alistFind {α β : Type} [DecidableEq α] (l : List (α × β)) (k : α) : Option β :=
  (l.find? (fun e => decide (e.1 = k))).map (·.2)

def alistInsert {α β : Type} [DecidableEq α] (l : List (α × β)) (k : α) (v : β) : List (α × β) :=
  alistErase l k ++ [(k, v)]

def alistHas {α β : Type} [DecidableEq α] (l : List (α × β)) (k : α) : Bool :=
  l.any (fun e => decide (e.1 = k))

/-! ## `database.py` — the Session Registry

The sqlite `instances` table (`correlation_id TEXT PRIMARY KEY, port INTEGER
NOT NULL`) is modelled as an association list of rows. -/

/-- `insert_instance` (database.py:29-36): `INSERT OR REPLACE` keyed on the
primary key `correlation_id`. -/
def insert_instance (rows : List (String × Nat)) (correlation_id : String) (port : Nat) :
    List (String × Nat) :=
  alistInsert rows correlation_id port

/-- `delete_instance` (database.py:39-46): `DELETE ... WHERE correlation_id = ?`;
returns the new table and `cursor.rowcount > 0`. -/
def delete_instance (rows : List (String × Nat)) (correlation_id : String) :
    List (String × Nat) × Bool :=
  (alistErase rows correlation_id, alistHas rows correlation_id)

/-- `get_instance_port` (database.py:56-63): `SELECT port ... fetchone()`,
`row[0] if row else None`. -/
def get_instance_port (rows : List (String × Nat)) (correlation_id : String) : Option Nat :=
  alistFind rows correlation_id

/-- `get_all_instances` (database.py:49-53): the full table as a mapping. -/
def get_all_instances (rows : List (String × Nat)) : List (String × Nat) :=
  rows

/-- `instance_exists` (database.py:66-73). -/
def instance_exists (rows : List (String × Nat)) (correlation_id : String) : Bool :=
  alistHas rows correlation_id

/-! ## `opencode.py` — Spec Cache and Request Validator

An OpenAPI document, restricted to the structure `validate_request` reads:
an optional `"paths"` section mapping each path template to the list of its
declared method keys. -/

deriving instance DecidableEq for Except

structure OpenApiSpec where
  paths : Option (List (String × List String))
deriving DecidableEq

/-- Tokens of the pattern produced by `path_template_to_regex`
(opencode.py:14-17): each `\x7b...\x7d` placeholder becomes a
one-or-more-non-slash wildcard (`[^/]+` in the source regex), every other
template character is matched literally. -/
inductive PathTok where
  | lit (c : Char)
  | hole
deriving DecidableEq

/-- `path_template_to_regex` (opencode.py:14-17), with the produced regex
represented as a token list instead of a regex string.  `re.sub` replaces
each maximal `\x7b[^\x7d]+\x7d` group by the wildcard; an unmatched or empty
brace stays a literal character, and the wildcard stands for `[^/]+`.  The
recursion is driven by a character-count fuel that the scan, consuming at
least one character per step, can never exhaust. -/
def templateGo : Nat → List Char → List PathTok
  | _, [] => []
  | 0, _ => []
  | fuel + 1, '{' :: rest =>
    let inner := rest.takeWhile (fun c => c != '}')
    if inner.length < rest.length && !inner.isEmpty then
      PathTok.hole :: templateGo fuel (rest.drop (inner.length + 1))
    else
      PathTok.lit '{' :: templateGo fuel rest
  | fuel + 1, c :: rest => PathTok.lit c :: templateGo fuel rest

def path_template_to_regex (cs : List Char) : List PathTok :=
  templateGo cs.length cs

/-- Anchored matching of the produced pattern against a concrete path
(`re.match` with `^...$`, opencode.py:17 and 50): a literal token matches its
own character, a wildcard matches one or more characters none of which is a
slash.  The backtracking recursion is driven by a fuel of tokens-plus-input
length, which it can never exhaust: each step shortens that sum. -/
def regexMatchGo : Nat → List PathTok → List Char → Bool
  | _, [], [] => true
  | _, [], _ :: _ => false
  | _, PathTok.lit _ :: _, [] => false
  | _, PathTok.hole :: _, [] => false
  | 0, _ :: _, _ :: _ => false
  | fuel + 1, PathTok.lit c :: ts, x :: xs => (c == x) && regexMatchGo fuel ts xs
  | fuel + 1, PathTok.hole :: ts, x :: xs =>
    (x != '/') && (regexMatchGo fuel ts xs || regexMatchGo fuel (PathTok.hole :: ts) xs)

def regexMatch (ts : List PathTok) (cs : List Char) : Bool :=
  regexMatchGo (ts.length + cs.length) ts cs

def isHexDigitChar (c : Char) : Bool :=
  c.isDigit || (decide ('a' ≤ c) && decide (c ≤ 'f')) || (decide ('A' ≤ c) && decide (c ≤ 'F'))

def hexVal (c : Char) : Nat :=
  if c.isDigit then c.toNat - 48
  else if decide ('a' ≤ c) then c.toNat - 87
  else c.toNat - 55

/-- `urllib.parse.unquote` (used at opencode.py:47), modelled at byte level
for single-byte escapes: every valid `%HH` escape is decoded, an invalid
escape is left literal. -/
def unquoteGo : Nat → List Char → List Char
  | _, [] => []
  | 0, cs => cs
  | fuel + 1, '%' :: a :: b :: rest =>
    if isHexDigitChar a && isHexDigitChar b then
      Char.ofNat (16 * hexVal a + hexVal b) :: unquoteGo fuel rest
    else
      '%' :: unquoteGo fuel (a :: b :: rest)
  | fuel + 1, c :: rest => c :: unquoteGo fuel rest

def unquoteChars (cs : List Char) : List Char :=
  unquoteGo cs.length cs

def pyUnquote (s : String) : String :=
  String.mk (unquoteChars s.toList)

/-- Python's `str.lower()` (opencode.py:51-52), modelled per character for
the ASCII method names it is applied to. -/
def pyLower (s : String) : String :=
  String.mk (s.toList.map Char.toLower)

/-- `validate_request` (opencode.py:40-58) as the source executes it: the
first statement of the body is a bare `return`, so every request is accepted
and the rest of the body (lines 43-58) is dead code.  That dead remainder is
translated separately as `validate_request_enforcing`. -/
def validate_request (_spec : OpenApiSpec) (_method _path : String) : Except String Unit :=
  Except.ok ()

/-- Loop of opencode.py:49-58 over the declared path templates, applied to
the already-decoded path: first matching template wins; a match with the
method (case-insensitively) absent from the template's keys raises
method-not-allowed; no match at all raises path-not-found. -/
def validateAgainstPaths (method decodedPath : String) :
    List (String × List String) → Except String Unit
  | [] => Except.error ("Path '" ++ decodedPath ++ "' not found in OpenAPI spec")
  | (tmpl, methods) :: rest =>
    if regexMatch (path_template_to_regex tmpl.toList) decodedPath.toList then
      if (methods.map pyLower).contains (pyLower method) then
        Except.ok ()
      else
        Except.error ("Method '" ++ method ++ "' not allowed for path '" ++ decodedPath ++ "'")
    else
      validateAgainstPaths method decodedPath rest

/-- The unreachable body of `validate_request` (opencode.py:43-58): the
validation logic the surrounding code and the documentation intend to run. -/
def validate_request_enforcing (spec : OpenApiSpec) (method path : String) :
    Except String Unit :=
  match spec.paths with
  | none => Except.error "Invalid OpenAPI spec: no paths defined"
  | some paths => validateAgainstPaths method (pyUnquote path) paths

/-- Result of one `get_openapi_spec` call: the returned document or the
propagated exception, the cache dict after the call, and whether the call
issued a network fetch. -/
structure SpecCacheResult (S : Type) where
  result : Except String S
  cache : List ((String × Nat) × (S × Nat))
  fetched : Bool
deriving DecidableEq

/-- `get_openapi_spec` (opencode.py:20-37).  `_spec_cache` is the explicit
`cache` argument; the single network fetch the call may perform is passed in
as its outcome `fetch` (an `Except.error` models `httpx` raising).  A cached
entry younger than `ttl` is returned without fetching; otherwise the fetch
result is returned, and only a successful fetch is written back to the
cache. -/
def get_openapi_spec {S : Type} (fetch : Except String S)
    (cache : List ((String × Nat) × (S × Nat)))
    (hostname : String) (port : Nat) (now : Nat) (ttl : Nat := 600) : SpecCacheResult S :=
  match alistFind cache (hostname, port) with
  | some (spec, timestamp) =>
    if now - timestamp < ttl then
      ⟨Except.ok spec, cache, false⟩
    else
      match fetch with
      | Except.error e => ⟨Except.error e, cache, true⟩
      | Except.ok spec2 => ⟨Except.ok spec2, alistInsert cache (hostname, port) (spec2, now), true⟩
  | none =>
    match fetch with
    | Except.error e => ⟨Except.error e, cache, true⟩
    | Except.ok spec2 => ⟨Except.ok spec2, alistInsert cache (hostname, port) (spec2, now), true⟩

/-- `check_request_validity` (opencode.py:61-67): fetch the spec (through the
cache) and validate the request against it. -/
def check_request_validity (fetch : Except String OpenApiSpec)
    (cache : List ((String × Nat) × (OpenApiSpec × Nat)))
    (hostname : String) (port : Nat) (now : Nat) (method path : String) :
    Except String Unit × List ((String × Nat) × (OpenApiSpec × Nat)) :=
  let r := get_openapi_spec fetch cache hostname port now
  match r.result with
  | Except.error e => (Except.error e, r.cache)
  | Except.ok spec => (validate_request spec method path, r.cache)

/-! ## `processes.py` — Process Supervisor

One entry of the `psutil.process_iter` snapshot: either the process is
inspectable (pid and `cmdline`, which psutil may report as `None`), or
accessing its info raises `NoSuchProcess` / `AccessDenied`. -/

inductive ProcInfo where
  | ok (pid : Nat) (cmdline : Option (List String))
  | vanished
  | denied
deriving DecidableEq

/-- One element of the list `list_opencode_processes` returns.  The dict
value type in the source is `int | str | None`; the code leaves `port` as
`None` when no `--port` flag is found but always assigns `hostname` a
string (initialised to `""`). -/
structure ProcRecord where
  pid : Nat
  port : Option Int
  hostname : Option String
deriving DecidableEq

def digitsToNat (ds : List Char) : Nat :=
  ds.foldl (fun a c => 10 * a + (c.toNat - 48)) 0

/-- Python's `int(...)` applied to a command-line token (processes.py:18),
modelled for plain decimal tokens with an optional sign; `none` models
`int` raising `ValueError`.  (Python also strips whitespace and allows
digit-group underscores; those forms do not occur in backend command
lines and are not modelled.) -/
def pyInt? (s : String) : Option Int :=
  match s.toList with
  | '-' :: ds =>
    if !ds.isEmpty && ds.all Char.isDigit then some (-(Int.ofNat (digitsToNat ds))) else none
  | '+' :: ds =>
    if !ds.isEmpty && ds.all Char.isDigit then some (Int.ofNat (digitsToNat ds)) else none
  | ds =>
    if !ds.isEmpty && ds.all Char.isDigit then some (Int.ofNat (digitsToNat ds)) else none

/-- The flag-extraction loop of processes.py:16-22 (`for i, arg in
enumerate(cmd)`), carried over the running `port` / `hostname` values.  At
each index the code checks `arg == "--port"` then `arg == "--hostname"`,
each guarded by `i + 1 < len(cmd)`; `int(cmd[i + 1])` raising `ValueError`
is an `Except.error` (it is not caught by the surrounding
`except (NoSuchProcess, AccessDenied)`). -/
def scanFlags : List String → Option Int → String → Except String (Option Int × String)
  | [], port, hostname => Except.ok (port, hostname)
  | [_], port, hostname => Except.ok (port, hostname)
  | a :: b :: rest, port, hostname =>
    if a = "--port" then
      match pyInt? b with
      | none => Except.error ("invalid literal for int() with base 10: '" ++ b ++ "'")
      | some v => scanFlags (b :: rest) (some v) hostname
    else if a = "--hostname" then
      scanFlags (b :: rest) port b
    else
      scanFlags (b :: rest) port hostname

/-- `list_opencode_processes` (processes.py:7-26) over an explicit process
table.  `NoSuchProcess` / `AccessDenied` entries are skipped by the
`except` clause; a qualifying process (cmdline containing both `"opencode"`
and `"serve"`) contributes one record; an uncaught `ValueError` from the
port conversion aborts the whole enumeration. -/
def list_opencode_processes : List ProcInfo → Except String (List ProcRecord)
  | [] => Except.ok []
  | ProcInfo.vanished :: rest => list_opencode_processes rest
  | ProcInfo.denied :: rest => list_opencode_processes rest
  | ProcInfo.ok pid cmdline :: rest =>
    let cmd := cmdline.getD []
    if cmd.contains "opencode" && cmd.contains "serve" then
      match scanFlags cmd none "" with
      | Except.error e => Except.error e
      | Except.ok (port, hostname) =>
        match list_opencode_processes rest with
        | Except.error e => Except.error e
        | Except.ok l => Except.ok (⟨pid, port, some hostname⟩ :: l)
    else
      list_opencode_processes rest

/-- Outcome of the forced-kill escalation (processes.py:44-49). -/
inductive EscalationResult where
  | killOk
  | killErr (e : String)
deriving DecidableEq

/-- Outcome of the OS interactions of one `kill_opencode_process` call for a
pid that passed the snapshot check: which exception, if any, each psutil
step raises (processes.py:35-51). -/
inductive KillBehavior where
  | noProcess
  | gracefulOk
  | gracefulTimeout (second : EscalationResult)
  | gracefulErr (e : String)
deriving DecidableEq

/-- `kill_opencode_process` (processes.py:29-51).  The second component of a
successful result counts the termination signals attempted (`terminate` and
the escalation `kill`); the snapshot-membership guard returns before any
signal.  An error of the underlying enumeration propagates. -/
def kill_opencode_process (table : List ProcInfo) (pid : Nat) (beh : KillBehavior) :
    Except String ((Bool × String) × Nat) :=
  match list_opencode_processes table with
  | Except.error e => Except.error e
  | Except.ok snapshot =>
    if !(snapshot.map (·.pid)).contains pid then
      Except.ok ((false, "Process not found or not an OpenCode process."), 0)
    else
      match beh with
      | KillBehavior.noProcess => Except.ok ((false, "Process does not exist."), 0)
      | KillBehavior.gracefulOk => Except.ok ((true, "Process terminated successfully."), 1)
      | KillBehavior.gracefulErr e =>
        Except.ok ((false, "Failed to terminate process. " ++ e), 1)
      | KillBehavior.gracefulTimeout EscalationResult.killOk =>
        Except.ok ((true, "Process terminated successfully."), 2)
      | KillBehavior.gracefulTimeout (EscalationResult.killErr e) =>
        Except.ok ((false, "Failed to kill process. " ++ e), 2)

/-- `OpenCodeHealthResponse` (processes.py:57-59). -/
structure OpenCodeHealthResponse where
  healthy : Bool
  version : String
deriving DecidableEq

/-- Outcome of the single health probe `check_opencode_health` performs: a
response with its status and parsed body, or one of the exceptions the
`except` clause at processes.py:80 catches. -/
inductive HealthProbe where
  | response (status : Nat) (body : OpenCodeHealthResponse)
  | httpStatusExc (msg : String)
  | timeoutExc (msg : String)
  | connectExc (msg : String)
deriving DecidableEq

/-- `check_opencode_health` (processes.py:65-83): a 200 response returns the
parsed payload unchanged; any other status and every caught transport
exception become an `OpenCodeHealthError` (modelled as `Except.error`)
carrying the cause. -/
def check_opencode_health (port : Nat) (probe : HealthProbe) :
    Except String OpenCodeHealthResponse :=
  match probe with
  | HealthProbe.response status body =>
    if status = 200 then
      Except.ok body
    else
      Except.error ("Unexpected status code " ++ toString status ++
        " from OpenCode health endpoint")
  | HealthProbe.httpStatusExc m =>
    Except.error ("Failed to connect to OpenCode server on port " ++ toString port ++ ": " ++ m)
  | HealthProbe.timeoutExc m =>
    Except.error ("Failed to connect to OpenCode server on port " ++ toString port ++ ": " ++ m)
  | HealthProbe.connectExc m =>
    Except.error ("Failed to connect to OpenCode server on port " ++ toString port ++ ": " ++ m)

/-! ## `main.py` — Proxy Gateway and operational endpoints -/

/-- The exception classes the `try` in `_proxy_request` (main.py:211-218)
distinguishes when awaiting `check_request_validity`: the validator's
`InvalidRequestException`, `httpx.RequestError` from the spec fetch, and
any other exception. -/
inductive ValidationExc where
  | invalidRequest (msg : String)
  | requestError (msg : String)
  | other (msg : String)
deriving DecidableEq

/-- Outcome of one proxy call: an `HTTPException` with status and detail, or
the backend response relayed with the forwarding URL the gateway built. -/
inductive ProxyOutcome where
  | httpError (status : Nat) (detail : String)
  | relay (url : String) (status : Nat) (body : String)
deriving DecidableEq

/-- A proxy call's outcome together with which stages ran: whether
`check_request_validity` was awaited and whether the backend request was
sent. -/
structure ProxyResult where
  outcome : ProxyOutcome
  validationRun : Bool
  backendCalled : Bool
deriving DecidableEq

/-- `_proxy_request` (main.py:205-234).  The registry lookup, path
normalisation, exception-to-status translation and forwarding URL follow the
source; the validation outcome and the backend's response are the call's
two external effects, passed in as values. -/
def _proxy_request (registry : List (String × Nat)) (corr_id path : String)
    (validation : Except ValidationExc Unit)
    (backendStatus : Nat) (backendBody : String) : ProxyResult :=
  match get_instance_port registry corr_id with
  | none => ⟨ProxyOutcome.httpError 404 "No active session", false, false⟩
  | some port =>
    let npath := if path.startsWith "/" then path else "/" ++ path
    match validation with
    | Except.error (ValidationExc.invalidRequest m) =>
      ⟨ProxyOutcome.httpError 422 m, true, false⟩
    | Except.error (ValidationExc.requestError m) =>
      ⟨ProxyOutcome.httpError 502 ("Error fetching OpenAPI spec: " ++ m), true, false⟩
    | Except.error (ValidationExc.other m) =>
      ⟨ProxyOutcome.httpError 500 ("Error validating request: " ++ m), true, false⟩
    | Except.ok _ =>
      ⟨ProxyOutcome.relay ("http://localhost:" ++ toString port ++ npath)
        backendStatus backendBody, true, true⟩

/-- Modelled from the spec: the `slowapi` `Limiter(key_func=get_remote_address)`
with the `"5/minute"` limit string applied to `proxy_delete` is an external
library; the spec describes it as "a per-client-address rate limit (a small
fixed quota per minute)" under which "issuing 6 DELETE proxy requests ...
within one minute from the same client results in the 6th failing".  It is
modelled as a moving one-minute window: a request is allowed, and recorded,
iff fewer than 5 requests from the same client address were recorded in the
last 60 seconds. -/
def limiter_allow (hits : List (String × Nat)) (client : String) (now : Nat) :
    Bool × List (String × Nat) :=
  let recent := hits.filter (fun h => decide (h.1 = client) && decide (now - h.2 < 60))
  if recent.length < 5 then (true, (client, now) :: hits) else (false, hits)

/-- `proxy_delete` (main.py:273-280): the only proxy route carrying
`@limiter.limit("5/minute")`; a rejected request gets slowapi's 429 and the
handler body never runs. -/
def proxy_delete (hits : List (String × Nat)) (client : String) (now : Nat)
    (registry : List (String × Nat)) (corr_id path : String)
    (validation : Except ValidationExc Unit) (backendStatus : Nat) (backendBody : String) :
    ProxyResult × List (String × Nat) :=
  match limiter_allow hits client now with
  | (true, hits2) => (_proxy_request registry corr_id path validation backendStatus backendBody, hits2)
  | (false, hits2) =>
    (⟨ProxyOutcome.httpError 429 "Rate limit exceeded: 5 per 1 minute", false, false⟩, hits2)

/-- `proxy_get` (main.py:237-243): no rate limit. -/
def proxy_get (hits : List (String × Nat)) (_client : String) (_now : Nat)
    (registry : List (String × Nat)) (corr_id path : String)
    (validation : Except ValidationExc Unit) (backendStatus : Nat) (backendBody : String) :
    ProxyResult × List (String × Nat) :=
  (_proxy_request registry corr_id path validation backendStatus backendBody, hits)

/-- `proxy_post` (main.py:246-252): no rate limit. -/
def proxy_post (hits : List (String × Nat)) (_client : String) (_now : Nat)
    (registry : List (String × Nat)) (corr_id path : String)
    (validation : Except ValidationExc Unit) (backendStatus : Nat) (backendBody : String) :
    ProxyResult × List (String × Nat) :=
  (_proxy_request registry corr_id path validation backendStatus backendBody, hits)

/-- `proxy_put` (main.py:255-261): no rate limit. -/
def proxy_put (hits : List (String × Nat)) (_client : String) (_now : Nat)
    (registry : List (String × Nat)) (corr_id path : String)
    (validation : Except ValidationExc Unit) (backendStatus : Nat) (backendBody : String) :
    ProxyResult × List (String × Nat) :=
  (_proxy_request registry corr_id path validation backendStatus backendBody, hits)

/-- `proxy_patch` (main.py:264-270): no rate limit. -/
def proxy_patch (hits : List (String × Nat)) (_client : String) (_now : Nat)
    (registry : List (String × Nat)) (corr_id path : String)
    (validation : Except ValidationExc Unit) (backendStatus : Nat) (backendBody : String) :
    ProxyResult × List (String × Nat) :=
  (_proxy_request registry corr_id path validation backendStatus backendBody, hits)

/-- `check_port` (main.py:178-183): a successful probe is returned with 200,
an `OpenCodeHealthError` becomes `HTTPException(502, str(e))`. -/
def check_port (port : Nat) (probe : HealthProbe) :
    Nat × Except String OpenCodeHealthResponse :=
  match check_opencode_health port probe with
  | Except.ok body => (200, Except.ok body)
  | Except.error e => (502, Except.error e)

/-- `kill_process` (main.py:196-199): the supervisor's `(success, msg)` pair
is always wrapped in a 200 `KillProcessResponse`. -/
def kill_process (table : List ProcInfo) (pid : Nat) (beh : KillBehavior) :
    Except String (Nat × (Bool × String)) :=
  match kill_opencode_process table pid beh with
  | Except.error e => Except.error e
  | Except.ok (r, _) => Except.ok ((200, r))

/-- Modelled from the spec: `insert_chat` is imported from
`grokomation.database` in main.py:26 but no definition appears in any source
file; the spec says `POST /instances/{id}/chat` "persists an opaque payload
associated with an existing session".  Modelled as appending the
`(correlation_id, payload)` pair to the chat store. -/
def insert_chat (chats : List (String × String)) (correlation_id chat_json : String) :
    List (String × String) :=
  chats ++ [(correlation_id, chat_json)]

/-- `save_chat` (main.py:158-170): 404 before anything is persisted when the
session is unknown, otherwise the serialised payload is stored and
`{"status": "chat_saved"}` returned. -/
def save_chat (registry : List (String × Nat)) (chats : List (String × String))
    (corr_id chat_json : String) : (Nat × String) × List (String × String) :=
  match get_instance_port registry corr_id with
  | none => ((404, "Instance not found"), chats)
  | some _ => ((200, "chat_saved"), insert_chat chats corr_id chat_json)

/-! ## Specification-side description of the process listing

These definitions follow the words of the claim about
`ListBackendProcesses` ("port and hostname extracted from the arguments
following `--port` and `--hostname`"), to be compared with the embedded
`list_opencode_processes`. -/

/-- The token following the last occurrence of `flag` that has a following
token at all. -/
def lastFlagTok (flag : String) : List String → Option String
  | [] => none
  | [_] => none
  | a :: b :: rest =>
    match lastFlagTok flag (b :: rest) with
    | some t => some t
    | none => if a = flag then some b else none

/-- Whether a command line qualifies as a backend server invocation:
it contains the program name and the "serve" subcommand token. -/
def qualifiesAsBackend (cmd : List String) : Bool :=
  cmd.contains "opencode" && cmd.contains "serve"

/-- The record the claim describes for one qualifying process, amended to
what the code produces for a missing `--hostname` flag: the port is the
parsed token following the last `--port` flag (absent when the flag is
missing), the hostname is the token following the last `--hostname` flag
and the empty string — not an absent value — when the flag is missing. -/
def claimedRecord (pid : Nat) (cmd : List String) : ProcRecord :=
  ⟨pid, (lastFlagTok "--port" cmd).bind pyInt?, some ((lastFlagTok "--hostname" cmd).getD "")⟩

/-- The listing the claim describes: exactly the inspectable processes whose
command line qualifies, in table order, each as its `claimedRecord`;
vanished and permission-denied processes are skipped. -/
def claimedRecords : List ProcInfo → List ProcRecord
  | [] => []
  | ProcInfo.ok pid cmdline :: rest =>
    let cmd := cmdline.getD []
    if qualifiesAsBackend cmd then claimedRecord pid cmd :: claimedRecords rest
    else claimedRecords rest
  | ProcInfo.vanished :: rest => claimedRecords rest
  | ProcInfo.denied :: rest => claimedRecords rest

/-- Every token the extraction loop passes to `int(...)`: the token after
each `--port` occurrence that has a successor. -/
def portToks : List String → List String
  | [] => []
  | [_] => []
  | a :: b :: rest => (if a = "--port" then [b] else []) ++ portToks (b :: rest)

/-- A command line whose every `--port` argument parses as a decimal
integer. -/
def cmdPortsParse (cmd : List String) : Bool :=
  (portToks cmd).all (fun t => (pyInt? t).isSome)

/-- A process table on which the enumeration meets no `ValueError`: every
inspectable qualifying process has parseable `--port` arguments. -/
def tablePortsParse : List ProcInfo → Bool
  | [] => true
  | ProcInfo.ok _ cmdline :: rest =>
    (!qualifiesAsBackend (cmdline.getD []) || cmdPortsParse (cmdline.getD [])) &&
      tablePortsParse rest
  | ProcInfo.vanished :: rest => tablePortsParse rest
  | ProcInfo.denied :: rest => tablePortsParse rest

/-! ## Helper lemmas about the keyed-store primitives -/

theorem alist_find?_erase {α β : Type} [DecidableEq α] (l : List (α × β)) (k : α) :
    (alistErase l k).find? (fun e => decide (e.1 = k)) = none := by
  simp [alistErase, List.find?_filter]

theorem alistFind_insert {α β : Type} [DecidableEq α] (l : List (α × β)) (k : α) (v : β) :
    alistFind (alistInsert l k v) k = some v := by
  unfold alistFind alistInsert
  rw [List.find?_append, alist_find?_erase]
  simp [List.find?_cons]

theorem alistFind_erase {α β : Type} [DecidableEq α] (l : List (α × β)) (k : α) :
    alistFind (alistErase l k) k = none := by
  unfold alistFind
  rw [alist_find?_erase]
  rfl

theorem alistHas_erase {α β : Type} [DecidableEq α] (l : List (α × β)) (k : α) :
    alistHas (alistErase l k) k = false := by
  simp [alistErase, alistHas, List.any_filter]

/-- C2: on the Session Registry, for all correlation ids and ports,
`Put` then `Get` returns the stored port; `Delete` then `Get` returns
not-found; after a `Delete` for an id, a second `Delete` for that id
reports that no entry existed (`False`), without error. -/
theorem registry_put_get_delete (rows : List (String × Nat)) (c : String) (p : Nat) :
    get_instance_port (insert_instance rows c p) c = some p
    ∧ get_instance_port (delete_instance rows c).1 c = none
    ∧ (delete_instance (delete_instance rows c).1 c).2 = false := by
  refine ⟨?_, ?_, ?_⟩
  · exact alistFind_insert rows c p
  · exact alistFind_erase rows c
  · exact alistHas_erase rows c

/-- C1: the claim fails on the code — `validate_request` is a no-op.  Its
body begins with a bare `return` (opencode.py:41), so it accepts every
schema, method and path, including `POST /widgets/42` against the schema
`{"/widgets/{id}": {"get": \x7b\x7d, "delete": \x7b\x7d}}` that the claim
requires it to reject.  The enforcement logic the claim (and the spec's
design note) describes exists only as the dead code after that `return`,
translated as `validate_request_enforcing`, which does behave exactly as
the claim states on all four of its cases. -/
theorem validate_request_noop_vs_enforcing :
    (∀ (spec : OpenApiSpec) (method path : String),
        validate_request spec method path = Except.ok ())
    ∧ validate_request ⟨some [("/widgets/{id}", ["get", "delete"])]⟩ "POST" "/widgets/42"
        = Except.ok ()
    ∧ validate_request_enforcing ⟨some [("/widgets/{id}", ["get", "delete"])]⟩ "POST" "/widgets/42"
        = Except.error "Method 'POST' not allowed for path '/widgets/42'"
    ∧ validate_request_enforcing ⟨some [("/widgets/{id}", ["get", "delete"])]⟩ "GET" "/widgets/42"
        = Except.ok ()
    ∧ validate_request_enforcing ⟨some [("/widgets/{id}", ["get", "delete"])]⟩ "GET" "/unknown"
        = Except.error "Path '/unknown' not found in OpenAPI spec"
    ∧ validate_request_enforcing ⟨none⟩ "GET" "/widgets/42"
        = Except.error "Invalid OpenAPI spec: no paths defined" := by
  exact ⟨fun _ _ _ => rfl, by decide, by decide, by decide, by decide, by decide⟩

/-- A `get_openapi_spec` call that reports a fetch and a successful result
wrote exactly the fetched document with the call's timestamp into the
cache. -/
theorem get_openapi_spec_fetched_ok {S : Type} (fetch : Except String S)
    (cache : List ((String × Nat) × (S × Nat)))
    (hostname : String) (port : Nat) (now ttl : Nat) (s : S)
    (hres : (get_openapi_spec fetch cache hostname port now ttl).result = Except.ok s)
    (hfet : (get_openapi_spec fetch cache hostname port now ttl).fetched = true) :
    (get_openapi_spec fetch cache hostname port now ttl).cache
      = alistInsert cache (hostname, port) (s, now) := by
  unfold get_openapi_spec at *
  cases hf : alistFind cache (hostname, port) with
  | none =>
    cases fetch with
    | error e => simp [hf] at hres
    | ok sp => simp [hf] at hres ⊢; rw [hres]
  | some v =>
    obtain ⟨sp, ts⟩ := v
    by_cases ht : now - ts < ttl
    · simp [hf, ht] at hfet
    · cases fetch with
      | error e => simp [hf, ht] at hres
      | ok sp2 => simp [hf, ht] at hres ⊢; rw [hres]

/-- C3: for a cache key, a `GetSpec` call within the TTL of a previous
successful fetch returns the cached document with no network fetch,
whatever the network would now answer; a call at or after TTL expiry
performs exactly one more fetch; and a failed fetch (on a missing or on a
stale entry) propagates as an error and leaves the cache unchanged — no
negative caching. -/
theorem spec_cache_ttl_and_failure {S : Type} (cache : List ((String × Nat) × (S × Nat)))
    (hostname : String) (port : Nat) (t0 t1 ttl : Nat) (s : S) (f1 f2 : Except String S) :
    ((get_openapi_spec f1 cache hostname port t0 ttl).result = Except.ok s →
      (get_openapi_spec f1 cache hostname port t0 ttl).fetched = true →
      t1 - t0 < ttl →
      get_openapi_spec f2 (get_openapi_spec f1 cache hostname port t0 ttl).cache hostname port t1 ttl
        = ⟨Except.ok s, (get_openapi_spec f1 cache hostname port t0 ttl).cache, false⟩)
    ∧ ((get_openapi_spec f1 cache hostname port t0 ttl).result = Except.ok s →
      (get_openapi_spec f1 cache hostname port t0 ttl).fetched = true →
      ttl ≤ t1 - t0 →
      (get_openapi_spec f2 (get_openapi_spec f1 cache hostname port t0 ttl).cache hostname port
        t1 ttl).fetched = true)
    ∧ (∀ e : String, alistFind cache (hostname, port) = none →
      get_openapi_spec (Except.error e) cache hostname port t0 ttl
        = ⟨Except.error e, cache, true⟩)
    ∧ (∀ (e : String) (sp : S) (ts : Nat), alistFind cache (hostname, port) = some (sp, ts) →
      ttl ≤ t0 - ts →
      get_openapi_spec (Except.error e) cache hostname port t0 ttl
        = ⟨Except.error e, cache, true⟩) := by
  refine ⟨?_, ?_, ?_, ?_⟩
  · intro hres hfet htl
    rw [get_openapi_spec_fetched_ok f1 cache hostname port t0 ttl s hres hfet]
    unfold get_openapi_spec
    rw [alistFind_insert]
    simp [htl]
  · intro hres hfet htl
    rw [get_openapi_spec_fetched_ok f1 cache hostname port t0 ttl s hres hfet]
    unfold get_openapi_spec
    rw [alistFind_insert]
    have hn : ¬(t1 - t0 < ttl) := by omega
    cases f2 with
    | error e => simp [hn]
    | ok sp => simp [hn]
  · intro e hf
    simp [get_openapi_spec, hf]
  · intro e sp ts hf htl
    have hn : ¬(t0 - ts < ttl) := by omega
    simp [get_openapi_spec, hf, hn]

/-- C3 witness: a fetch of document `7` at time 0 into an empty cache is
served from the cache at time 100 without fetching, even though the network
is now down; and a failed fetch on the empty cache propagates the error and
leaves the cache empty. -/
theorem spec_cache_ttl_and_failure_witness :
    get_openapi_spec (Except.error "down") [(("localhost", 4106), (7, 0))] "localhost" 4106 100 600
      = ⟨Except.ok 7, [(("localhost", 4106), (7, 0))], false⟩
    ∧ get_openapi_spec (Except.error "down") ([] : List ((String × Nat) × (Nat × Nat)))
        "localhost" 4106 0 600 = ⟨Except.error "down", [], true⟩ := by
  constructor
  · exact (spec_cache_ttl_and_failure ([] : List ((String × Nat) × (Nat × Nat)))
      "localhost" 4106 0 100 600 7 (Except.ok 7) (Except.error "down")).1 rfl rfl (by decide)
  · exact (spec_cache_ttl_and_failure ([] : List ((String × Nat) × (Nat × Nat)))
      "localhost" 4106 0 100 600 7 (Except.ok 7) (Except.error "down")).2.2.1 "down" rfl

/-- C4: the gateway maps each proxy failure kind to its own outcome: an
unknown correlation id yields 404 "No active session" with neither the
validator consulted nor the backend called; a validation rejection yields
422 carrying the rejection reason; a spec-fetch failure
(`httpx.RequestError`) yields 502; any other validation-path exception
yields a generic 500 — in the last three cases without a backend call. -/
theorem proxy_failure_mapping (registry : List (String × Nat)) (corr_id path : String)
    (validation : Except ValidationExc Unit) (bs : Nat) (bb : String) :
    (get_instance_port registry corr_id = none →
      _proxy_request registry corr_id path validation bs bb
        = ⟨ProxyOutcome.httpError 404 "No active session", false, false⟩)
    ∧ (∀ (p : Nat) (m : String), get_instance_port registry corr_id = some p →
      validation = Except.error (ValidationExc.invalidRequest m) →
      _proxy_request registry corr_id path validation bs bb
        = ⟨ProxyOutcome.httpError 422 m, true, false⟩)
    ∧ (∀ (p : Nat) (m : String), get_instance_port registry corr_id = some p →
      validation = Except.error (ValidationExc.requestError m) →
      _proxy_request registry corr_id path validation bs bb
        = ⟨ProxyOutcome.httpError 502 ("Error fetching OpenAPI spec: " ++ m), true, false⟩)
    ∧ (∀ (p : Nat) (m : String), get_instance_port registry corr_id = some p →
      validation = Except.error (ValidationExc.other m) →
      _proxy_request registry corr_id path validation bs bb
        = ⟨ProxyOutcome.httpError 500 ("Error validating request: " ++ m), true, false⟩) := by
  refine ⟨?_, ?_, ?_, ?_⟩
  · intro h
    simp [_proxy_request, h]
  · intro p m hp hv
    simp [_proxy_request, hp, hv]
  · intro p m hp hv
    simp [_proxy_request, hp, hv]
  · intro p m hp hv
    simp [_proxy_request, hp, hv]

/-- C4 witness: the four outcomes at a concrete registry and concrete
validation results. -/
theorem proxy_failure_mapping_witness :
    _proxy_request [("corr-1", 9001)] "corr-2" "/status" (Except.ok ()) 200 "ok"
      = ⟨ProxyOutcome.httpError 404 "No active session", false, false⟩
    ∧ _proxy_request [("corr-1", 9001)] "corr-1" "/status"
        (Except.error (ValidationExc.invalidRequest "nope")) 200 "ok"
      = ⟨ProxyOutcome.httpError 422 "nope", true, false⟩
    ∧ _proxy_request [("corr-1", 9001)] "corr-1" "/status"
        (Except.error (ValidationExc.requestError "conn refused")) 200 "ok"
      = ⟨ProxyOutcome.httpError 502 "Error fetching OpenAPI spec: conn refused", true, false⟩
    ∧ _proxy_request [("corr-1", 9001)] "corr-1" "/status"
        (Except.error (ValidationExc.other "boom")) 200 "ok"
      = ⟨ProxyOutcome.httpError 500 "Error validating request: boom", true, false⟩ := by
  refine ⟨?_, ?_, ?_, ?_⟩
  · exact (proxy_failure_mapping [("corr-1", 9001)] "corr-2" "/status" (Except.ok ()) 200 "ok").1
      (by decide)
  · exact (proxy_failure_mapping [("corr-1", 9001)] "corr-1" "/status"
      (Except.error (ValidationExc.invalidRequest "nope")) 200 "ok").2.1 9001 "nope"
      (by decide) rfl
  · exact (proxy_failure_mapping [("corr-1", 9001)] "corr-1" "/status"
      (Except.error (ValidationExc.requestError "conn refused")) 200 "ok").2.2.1 9001
      "conn refused" (by decide) rfl
  · exact (proxy_failure_mapping [("corr-1", 9001)] "corr-1" "/status"
      (Except.error (ValidationExc.other "boom")) 200 "ok").2.2.2 9001 "boom"
      (by decide) rfl

/-- C5: only the DELETE proxy route is rate-limited, per client address,
with a quota of 5 per minute: a client with 5 or more recorded requests in
the last minute gets 429 with neither validation nor backend call and no
new request recorded; a client below the quota proceeds to the normal proxy
flow; the GET/POST/PUT/PATCH proxy routes ignore the limiter entirely and
leave its state unchanged. -/
theorem delete_rate_limit (hits : List (String × Nat)) (client other : String) (now : Nat)
    (registry : List (String × Nat)) (corr_id path : String)
    (validation : Except ValidationExc Unit) (bs : Nat) (bb : String) :
    (5 ≤ (hits.filter (fun h => decide (h.1 = client) && decide (now - h.2 < 60))).length →
      proxy_delete hits client now registry corr_id path validation bs bb
        = (⟨ProxyOutcome.httpError 429 "Rate limit exceeded: 5 per 1 minute", false, false⟩, hits))
    ∧ ((hits.filter (fun h => decide (h.1 = other) && decide (now - h.2 < 60))).length < 5 →
      proxy_delete hits other now registry corr_id path validation bs bb
        = (_proxy_request registry corr_id path validation bs bb, (other, now) :: hits))
    ∧ proxy_get hits client now registry corr_id path validation bs bb
        = (_proxy_request registry corr_id path validation bs bb, hits)
    ∧ proxy_post hits client now registry corr_id path validation bs bb
        = (_proxy_request registry corr_id path validation bs bb, hits)
    ∧ proxy_put hits client now registry corr_id path validation bs bb
        = (_proxy_request registry corr_id path validation bs bb, hits)
    ∧ proxy_patch hits client now registry corr_id path validation bs bb
        = (_proxy_request registry corr_id path validation bs bb, hits) := by
  refine ⟨?_, ?_, rfl, rfl, rfl, rfl⟩
  · intro hc
    have hn : ¬((hits.filter
        (fun h => decide (h.1 = client) && decide (now - h.2 < 60))).length < 5) := by omega
    simp [proxy_delete, limiter_allow, hn]
  · intro hc
    simp [proxy_delete, limiter_allow, hc]

/-- C5 witness: after five DELETE hits from `10.0.0.1` inside the window,
the sixth DELETE from `10.0.0.1` at time 60 is rejected with 429 before any
backend call, while a DELETE from `10.0.0.2` in the same window proceeds. -/
theorem delete_rate_limit_witness :
    proxy_delete [("10.0.0.1", 10), ("10.0.0.1", 20), ("10.0.0.1", 30), ("10.0.0.1", 40),
        ("10.0.0.1", 50)] "10.0.0.1" 60 [("corr-1", 9001)] "corr-1" "/status" (Except.ok ()) 200 "ok"
      = (⟨ProxyOutcome.httpError 429 "Rate limit exceeded: 5 per 1 minute", false, false⟩,
         [("10.0.0.1", 10), ("10.0.0.1", 20), ("10.0.0.1", 30), ("10.0.0.1", 40), ("10.0.0.1", 50)])
    ∧ proxy_delete [("10.0.0.1", 10), ("10.0.0.1", 20), ("10.0.0.1", 30), ("10.0.0.1", 40),
        ("10.0.0.1", 50)] "10.0.0.2" 60 [("corr-1", 9001)] "corr-1" "/status" (Except.ok ()) 200 "ok"
      = (_proxy_request [("corr-1", 9001)] "corr-1" "/status" (Except.ok ()) 200 "ok",
         ("10.0.0.2", 60) :: [("10.0.0.1", 10), ("10.0.0.1", 20), ("10.0.0.1", 30),
           ("10.0.0.1", 40), ("10.0.0.1", 50)]) := by
  constructor
  · exact (delete_rate_limit [("10.0.0.1", 10), ("10.0.0.1", 20), ("10.0.0.1", 30),
      ("10.0.0.1", 40), ("10.0.0.1", 50)] "10.0.0.1" "10.0.0.2" 60 [("corr-1", 9001)] "corr-1"
      "/status" (Except.ok ()) 200 "ok").1 (by decide)
  · exact (delete_rate_limit [("10.0.0.1", 10), ("10.0.0.1", 20), ("10.0.0.1", 30),
      ("10.0.0.1", 40), ("10.0.0.1", 50)] "10.0.0.1" "10.0.0.2" 60 [("corr-1", 9001)] "corr-1"
      "/status" (Except.ok ()) 200 "ok").2.1 (by decide)

/-- C6: `kill_opencode_process` for a pid absent from the current listing
snapshot returns the not-found failure with zero termination signals
issued; and whenever the listing itself succeeds, the kill call returns its
`(success, message)` outcome as data — for every behaviour of the OS,
including permission-denied, already-exited and timeout failures — which
the `DELETE /proc/{pid}` endpoint wraps in a 200 response, never a
request failure. -/
theorem kill_process_guard_and_data (table : List ProcInfo) (pid : Nat) (beh : KillBehavior)
    (snapshot : List ProcRecord)
    (hl : list_opencode_processes table = Except.ok snapshot) :
    ((snapshot.map (·.pid)).contains pid = false →
      kill_opencode_process table pid beh
        = Except.ok ((false, "Process not found or not an OpenCode process."), 0))
    ∧ (∀ (r : Bool × String) (n : Nat),
        kill_opencode_process table pid beh = Except.ok (r, n) →
        kill_process table pid beh = Except.ok (200, r))
    ∧ (∃ (r : Bool × String) (n : Nat),
        kill_opencode_process table pid beh = Except.ok (r, n)) := by
  refine ⟨?_, ?_, ?_⟩
  · intro hc
    simp only [kill_opencode_process, hl]
    rw [hc]
    rfl
  · intro r n h
    simp [kill_process, h]
  · simp only [kill_opencode_process, hl]
    by_cases hc : (snapshot.map (·.pid)).contains pid
    · rw [hc]
      simp only [Bool.not_true, Bool.false_eq_true, if_false]
      cases beh with
      | noProcess => exact ⟨_, _, rfl⟩
      | gracefulOk => exact ⟨_, _, rfl⟩
      | gracefulErr e => exact ⟨_, _, rfl⟩
      | gracefulTimeout r2 => cases r2 <;> exact ⟨_, _, rfl⟩
    · simp only [Bool.not_eq_true] at hc
      rw [hc]
      exact ⟨_, _, rfl⟩

/-- C6 witness: with one backend process of pid 5 alive, killing pid 99
reports not-found with no signal, and a permission-denied failure on pid 5
comes back as `success := false` data inside a 200 response. -/
theorem kill_process_guard_and_data_witness :
    list_opencode_processes [ProcInfo.ok 5 (some ["opencode", "serve", "--port", "4106"])]
      = Except.ok [⟨5, some 4106, some ""⟩]
    ∧ kill_opencode_process [ProcInfo.ok 5 (some ["opencode", "serve", "--port", "4106"])] 99
        KillBehavior.gracefulOk
      = Except.ok ((false, "Process not found or not an OpenCode process."), 0)
    ∧ kill_process [ProcInfo.ok 5 (some ["opencode", "serve", "--port", "4106"])] 5
        (KillBehavior.gracefulErr "AccessDenied")
      = Except.ok (200, (false, "Failed to terminate process. AccessDenied")) := by
  refine ⟨by decide, ?_, ?_⟩
  · exact (kill_process_guard_and_data
      [ProcInfo.ok 5 (some ["opencode", "serve", "--port", "4106"])] 99 KillBehavior.gracefulOk
      [⟨5, some 4106, some ""⟩] (by decide)).1 (by decide)
  · exact (kill_process_guard_and_data
      [ProcInfo.ok 5 (some ["opencode", "serve", "--port", "4106"])] 5
      (KillBehavior.gracefulErr "AccessDenied") [⟨5, some 4106, some ""⟩] (by decide)).2.1
      (false, "Failed to terminate process. AccessDenied") 1 (by decide)

/-- C8: `check_opencode_health` collapses every probe failure — a non-200
status, a timeout, a connection failure (and the same for an
`HTTPStatusError`) — into the single `OpenCodeHealthError` kind, carrying
the original cause in its message, which the `/proc/check_port` endpoint
surfaces as 502; a 200 response is returned as the parsed
`{healthy, version}` payload unchanged, with status 200. -/
theorem check_health_error_collapse (port : Nat) (probe : HealthProbe) :
    (∀ (s : Nat) (b : OpenCodeHealthResponse), probe = HealthProbe.response s b → s = 200 →
      check_opencode_health port probe = Except.ok b
      ∧ check_port port probe = (200, Except.ok b))
    ∧ (∀ (s : Nat) (b : OpenCodeHealthResponse), probe = HealthProbe.response s b → s ≠ 200 →
      check_opencode_health port probe
        = Except.error ("Unexpected status code " ++ toString s ++
            " from OpenCode health endpoint")
      ∧ (check_port port probe).1 = 502)
    ∧ (∀ m : String, probe = HealthProbe.timeoutExc m →
      check_opencode_health port probe
        = Except.error ("Failed to connect to OpenCode server on port " ++ toString port ++
            ": " ++ m)
      ∧ (check_port port probe).1 = 502)
    ∧ (∀ m : String, probe = HealthProbe.connectExc m →
      check_opencode_health port probe
        = Except.error ("Failed to connect to OpenCode server on port " ++ toString port ++
            ": " ++ m)
      ∧ (check_port port probe).1 = 502)
    ∧ (∀ m : String, probe = HealthProbe.httpStatusExc m →
      check_opencode_health port probe
        = Except.error ("Failed to connect to OpenCode server on port " ++ toString port ++
            ": " ++ m)
      ∧ (check_port port probe).1 = 502) := by
  refine ⟨?_, ?_, ?_, ?_, ?_⟩
  · intro s b hp hs
    subst hp hs
    exact ⟨rfl, rfl⟩
  · intro s b hp hs
    subst hp
    constructor
    · simp [check_opencode_health, hs]
    · simp [check_port, check_opencode_health, hs]
  · intro m hp
    subst hp
    exact ⟨rfl, rfl⟩
  · intro m hp
    subst hp
    exact ⟨rfl, rfl⟩
  · intro m hp
    subst hp
    exact ⟨rfl, rfl⟩

/-- C8 witness: concrete probes for the success, bad-status and timeout
cases. -/
theorem check_health_error_collapse_witness :
    check_opencode_health 4106 (HealthProbe.response 200 ⟨true, "1.2.3"⟩)
      = Except.ok ⟨true, "1.2.3"⟩
    ∧ check_port 4106 (HealthProbe.response 200 ⟨true, "1.2.3"⟩)
      = (200, Except.ok ⟨true, "1.2.3"⟩)
    ∧ check_opencode_health 4106 (HealthProbe.response 500 ⟨false, "x"⟩)
      = Except.error "Unexpected status code 500 from OpenCode health endpoint"
    ∧ (check_port 4106 (HealthProbe.response 500 ⟨false, "x"⟩)).1 = 502
    ∧ check_opencode_health 4106 (HealthProbe.timeoutExc "timed out")
      = Except.error "Failed to connect to OpenCode server on port 4106: timed out"
    ∧ (check_port 4106 (HealthProbe.timeoutExc "timed out")).1 = 502 := by
  refine ⟨?_, ?_, ?_, ?_, ?_, ?_⟩
  · exact ((check_health_error_collapse 4106 (HealthProbe.response 200 ⟨true, "1.2.3"⟩)).1
      200 ⟨true, "1.2.3"⟩ rfl rfl).1
  · exact ((check_health_error_collapse 4106 (HealthProbe.response 200 ⟨true, "1.2.3"⟩)).1
      200 ⟨true, "1.2.3"⟩ rfl rfl).2
  · exact ((check_health_error_collapse 4106 (HealthProbe.response 500 ⟨false, "x"⟩)).2.1
      500 ⟨false, "x"⟩ rfl (by decide)).1
  · exact ((check_health_error_collapse 4106 (HealthProbe.response 500 ⟨false, "x"⟩)).2.1
      500 ⟨false, "x"⟩ rfl (by decide)).2
  · exact ((check_health_error_collapse 4106 (HealthProbe.timeoutExc "timed out")).2.2.1
      "timed out" rfl).1
  · exact ((check_health_error_collapse 4106 (HealthProbe.timeoutExc "timed out")).2.2.1
      "timed out" rfl).2

/-- C9: `POST /instances/{id}/chat` persists the opaque payload for an
existing session and answers `chat_saved`; for an unknown session it fails
with 404 "Instance not found" and persists nothing (the chat store is
returned unchanged).  The persistence primitive `insert_chat` is modelled
from the spec, its definition being absent from the sources. -/
theorem save_chat_semantics (registry : List (String × Nat)) (chats : List (String × String))
    (corr_id chat_json : String) :
    (get_instance_port registry corr_id = none →
      save_chat registry chats corr_id chat_json = ((404, "Instance not found"), chats))
    ∧ (∀ p : Nat, get_instance_port registry corr_id = some p →
      save_chat registry chats corr_id chat_json
        = ((200, "chat_saved"), chats ++ [(corr_id, chat_json)])) := by
  constructor
  · intro h
    simp [save_chat, h]
  · intro p h
    simp [save_chat, insert_chat, h]

/-- C9 witness: a concrete registry holding only `corr-1`. -/
theorem save_chat_semantics_witness :
    save_chat [("corr-1", 9001)] [("corr-1", "old")] "corr-2" "payload"
      = ((404, "Instance not found"), [("corr-1", "old")])
    ∧ save_chat [("corr-1", 9001)] [("corr-1", "old")] "corr-1" "payload"
      = ((200, "chat_saved"), [("corr-1", "old"), ("corr-1", "payload")]) := by
  constructor
  · exact (save_chat_semantics [("corr-1", 9001)] [("corr-1", "old")] "corr-2" "payload").1
      (by decide)
  · exact (save_chat_semantics [("corr-1", 9001)] [("corr-1", "old")] "corr-1" "payload").2
      9001 (by decide)

/-- The flag-extraction loop computes exactly the claim's description:
the port is the parsed token after the last `--port` flag (the initial
accumulator when the flag is missing), the hostname the token after the
last `--hostname` flag (the initial accumulator when missing) — provided
every `--port` token parses. -/
theorem scanFlags_spec : ∀ (cmd : List String) (p0 : Option Int) (h0 : String),
    cmdPortsParse cmd = true →
    scanFlags cmd p0 h0 = Except.ok
      ((match lastFlagTok "--port" cmd with
        | none => p0
        | some t => pyInt? t),
       (lastFlagTok "--hostname" cmd).getD h0)
  | [], _, _, _ => rfl
  | [_], _, _, _ => rfl
  | a :: b :: rest, p0, h0, hp => by
    have hp2 := hp
    unfold cmdPortsParse portToks at hp2
    rw [List.all_append, Bool.and_eq_true] at hp2
    obtain ⟨hpa, hprest⟩ := hp2
    have hp' : cmdPortsParse (b :: rest) = true := by
      unfold cmdPortsParse
      exact hprest
    by_cases ha : a = "--port"
    · subst ha
      have hb : (pyInt? b).isSome = true := by
        simpa using hpa
      obtain ⟨v, hv⟩ := Option.isSome_iff_exists.mp hb
      have IH := scanFlags_spec (b :: rest) (some v) h0 hp'
      simp only [scanFlags, if_pos rfl, hv]
      rw [IH]
      cases hlp : lastFlagTok "--port" (b :: rest) with
      | none =>
        cases hlh : lastFlagTok "--hostname" (b :: rest) with
        | none => simp [lastFlagTok, hlp, hlh, hv]
        | some t => simp [lastFlagTok, hlp, hlh, hv]
      | some t =>
        cases hlh : lastFlagTok "--hostname" (b :: rest) with
        | none => simp [lastFlagTok, hlp, hlh]
        | some t2 => simp [lastFlagTok, hlp, hlh]
    · by_cases hh : a = "--hostname"
      · subst hh
        have IH := scanFlags_spec (b :: rest) p0 b hp'
        simp only [scanFlags, if_neg ha, if_pos rfl]
        rw [IH]
        cases hlp : lastFlagTok "--port" (b :: rest) with
        | none =>
          cases hlh : lastFlagTok "--hostname" (b :: rest) with
          | none => simp [lastFlagTok, hlp, hlh, ha]
          | some t => simp [lastFlagTok, hlp, hlh, ha]
        | some t =>
          cases hlh : lastFlagTok "--hostname" (b :: rest) with
          | none => simp [lastFlagTok, hlp, hlh, ha]
          | some t2 => simp [lastFlagTok, hlp, hlh, ha]
      · have IH := scanFlags_spec (b :: rest) p0 h0 hp'
        simp only [scanFlags, if_neg ha, if_neg hh]
        rw [IH]
        cases hlp : lastFlagTok "--port" (b :: rest) with
        | none =>
          cases hlh : lastFlagTok "--hostname" (b :: rest) with
          | none => simp [lastFlagTok, hlp, hlh, ha, hh]
          | some t => simp [lastFlagTok, hlp, hlh, ha, hh]
        | some t =>
          cases hlh : lastFlagTok "--hostname" (b :: rest) with
          | none => simp [lastFlagTok, hlp, hlh, ha, hh]
          | some t2 => simp [lastFlagTok, hlp, hlh, ha, hh]

/-- On any table whose qualifying processes carry parseable `--port`
arguments, the embedded enumeration returns exactly the claim-side record
list. -/
theorem list_eq_claimedRecords : ∀ table : List ProcInfo,
    tablePortsParse table = true →
    list_opencode_processes table = Except.ok (claimedRecords table)
  | [], _ => rfl
  | ProcInfo.vanished :: rest, hp => by
    unfold tablePortsParse at hp
    simp only [list_opencode_processes, claimedRecords]
    exact list_eq_claimedRecords rest hp
  | ProcInfo.denied :: rest, hp => by
    unfold tablePortsParse at hp
    simp only [list_opencode_processes, claimedRecords]
    exact list_eq_claimedRecords rest hp
  | ProcInfo.ok pid cmdline :: rest, hp => by
    have hp2 := hp
    unfold tablePortsParse at hp2
    rw [Bool.and_eq_true] at hp2
    obtain ⟨hq, hrest⟩ := hp2
    by_cases hqual : qualifiesAsBackend (cmdline.getD []) = true
    · have hqualc : ((cmdline.getD []).contains "opencode"
          && (cmdline.getD []).contains "serve") = true := hqual
      have hparse : cmdPortsParse (cmdline.getD []) = true := by
        rw [hqual] at hq
        simpa using hq
      simp only [list_opencode_processes, claimedRecords, hqual, hqualc, if_true]
      rw [scanFlags_spec (cmdline.getD []) none "" hparse]
      rw [list_eq_claimedRecords rest hrest]
      cases hlp : lastFlagTok "--port" (cmdline.getD []) with
      | none => simp [claimedRecord, hlp]
      | some t => simp [claimedRecord, hlp]
    · have hqf : qualifiesAsBackend (cmdline.getD []) = false := by
        simpa using hqual
      have hqfc : ((cmdline.getD []).contains "opencode"
          && (cmdline.getD []).contains "serve") = false := hqf
      simp only [list_opencode_processes, claimedRecords, hqf, hqfc,
        Bool.false_eq_true, if_false]
      exact list_eq_claimedRecords rest hrest

/-- C7 counterexample: for a qualifying backend process without a
`--hostname` flag the code returns the record with `hostname` equal to the
present value `some ""` — the empty string — not the absent value `none`
the claim requires for a missing flag. -/
theorem list_processes_hostname_counterexample :
    list_opencode_processes [ProcInfo.ok 7 (some ["opencode", "serve", "--port", "4106"])]
      = Except.ok [⟨7, some 4106, some ""⟩]
    ∧ (some "" : Option String) ≠ (none : Option String) :=
  ⟨by decide, by decide⟩

/-- C7 amended: on every process table whose qualifying command lines have
decimal `--port` arguments, `list_opencode_processes` returns exactly the
qualifying inspectable processes (those whose command line contains
`"opencode"` and `"serve"`), in order, each as
`{pid, port, hostname}` with the port parsed from the token after the
last `--port` flag (absent when the flag is missing) and the hostname the
token after the last `--hostname` flag (the empty string — not absent —
when the flag is missing); vanished and permission-denied processes are
silently skipped. -/
theorem list_processes_characterization (table : List ProcInfo)
    (hp : tablePortsParse table = true) :
    list_opencode_processes table = Except.ok (claimedRecords table) :=
  list_eq_claimedRecords table hp

/-- C7 witness: a five-entry table with one full backend process, a
vanished and a denied entry, a non-backend process and a process with no
command line. -/
theorem list_processes_characterization_witness :
    tablePortsParse [ProcInfo.ok 11
        (some ["opencode", "serve", "--port", "4200", "--hostname", "0.0.0.0"]),
      ProcInfo.vanished, ProcInfo.denied, ProcInfo.ok 12 (some ["vim", "main.py"]),
      ProcInfo.ok 13 none] = true
    ∧ list_opencode_processes [ProcInfo.ok 11
        (some ["opencode", "serve", "--port", "4200", "--hostname", "0.0.0.0"]),
      ProcInfo.vanished, ProcInfo.denied, ProcInfo.ok 12 (some ["vim", "main.py"]),
      ProcInfo.ok 13 none]
      = Except.ok (claimedRecords [ProcInfo.ok 11
          (some ["opencode", "serve", "--port", "4200", "--hostname", "0.0.0.0"]),
        ProcInfo.vanished, ProcInfo.denied, ProcInfo.ok 12 (some ["vim", "main.py"]),
        ProcInfo.ok 13 none])
    ∧ claimedRecords [ProcInfo.ok 11
        (some ["opencode", "serve", "--port", "4200", "--hostname", "0.0.0.0"]),
      ProcInfo.vanished, ProcInfo.denied, ProcInfo.ok 12 (some ["vim", "main.py"]),
      ProcInfo.ok 13 none] = [⟨11, some 4200, some "0.0.0.0"⟩] := by
  refine ⟨by decide, ?_, by decide⟩
  exact list_processes_characterization _ (by decide)

/-- C10 counterexample: a qualifying backend process whose `--port`
argument is not a decimal integer makes the whole enumeration propagate the
`ValueError` from `int("abc")` instead of returning a list — only
`NoSuchProcess` and `AccessDenied` are caught. -/
theorem list_processes_bad_port_counterexample :
    list_opencode_processes [ProcInfo.ok 9 (some ["opencode", "serve", "--port", "abc"])]
      = Except.error "invalid literal for int() with base 10: 'abc'" := by
  decide

/-- C10 amended: the enumeration returns a list (never propagates an
exception) on every process table whose qualifying command lines carry only
decimal `--port` arguments; vanished and permission-denied processes are
still skipped. -/
theorem list_processes_total_when_ports_parse (table : List ProcInfo)
    (hp : tablePortsParse table = true) :
    ∃ l : List ProcRecord, list_opencode_processes table = Except.ok l :=
  ⟨claimedRecords table, list_eq_claimedRecords table hp⟩

/-- C10 witness: a table with a flagless backend process and a vanished
entry. -/
theorem list_processes_total_when_ports_parse_witness :
    tablePortsParse [ProcInfo.ok 21 (some ["opencode", "serve"]), ProcInfo.vanished] = true
    ∧ ∃ l : List ProcRecord,
        list_opencode_processes [ProcInfo.ok 21 (some ["opencode", "serve"]), ProcInfo.vanished]
          = Except.ok l :=
  ⟨by decide, list_processes_total_when_ports_parse _ (by decide)⟩
